import Mathlib

/-!
Shallow embedding of `src/unity_weather_monitor.py` (Unity Weather Monitor,
class `UnityWeatherMonitor`) and proofs about it.

Modelling conventions:
  * Python floats are modelled as rationals (`ℚ`); the `"{x:.1f}"` format is
    modelled as decimal rounding to one decimal place with round-half-to-even
    ties, the convention Python's float formatting follows.
  * Network calls are modelled by passing the (optional) decoded response as
    an argument: `none` stands for a transport error or undecodable body.
  * JSON fields that may be absent are `Option`s; Python `KeyError` /
    `IndexError` / `ValueError` escapes caught by the surrounding
    `try/except` are modelled as early returns that keep the state mutated
    so far, exactly mirroring the statement order of the Python code.
  * ISO date strings delivered by the API are modelled already parsed into
    a year/month/day triple (`PyDate`); per the spec (§4.4) malformed date
    strings are an input-contract violation, not a handled failure path.
-/

/-- A proleptic Gregorian calendar date, as held by Python's `datetime.date`. -/
structure PyDate where
  year : Nat
  month : Nat
  day : Nat
deriving DecidableEq, Repr

/-- Gregorian leap-year test (as in Python's `calendar.isleap`). -/
def isLeapYear (y : Nat) : Bool :=
  (y % 4 == 0 && y % 100 != 0) || y % 400 == 0

/-- Days in the months strictly before month `m` of year `y` (m counted 1..12). -/
def daysBeforeMonth (y m : Nat) : Nat :=
  [0, 31, 59, 90, 120, 151, 181, 212, 243, 273, 304, 334].getD (m - 1) 0
    + (if 2 < m && isLeapYear y then 1 else 0)

/-- Proleptic-Gregorian ordinal of a date, with 0001-01-01 ↦ 1,
matching Python's `date.toordinal`. -/
def dateOrdinal (d : PyDate) : Nat :=
  let py := d.year - 1
  365 * py + py / 4 - py / 100 + py / 400 + daysBeforeMonth d.year d.month + d.day

/-- Python `date.weekday()`: Monday = 0 … Sunday = 6.
Ordinal 1 (0001-01-01) was a Monday. -/
def pyWeekday (d : PyDate) : Nat := (dateOrdinal d + 6) % 7

/-- Python `date.isoweekday()`: Monday = 1 … Sunday = 7 (= `weekday() + 1`). -/
def isoWeekday (d : PyDate) : Nat := pyWeekday d + 1

/-- Abbreviated weekday names used by `strftime("%a")` (C locale). -/
def weekdayAbbrev (w : Nat) : String :=
  ["Mon", "Tue", "Wed", "Thu", "Fri", "Sat", "Sun"].getD w "Mon"

/-- Abbreviated month names used by `strftime("%b")` (C locale). -/
def monthAbbrev (m : Nat) : String :=
  ["Jan", "Feb", "Mar", "Apr", "May", "Jun",
   "Jul", "Aug", "Sep", "Oct", "Nov", "Dec"].getD (m - 1) "Jan"

/-- `strftime("%d")`: day of month, zero padded to two digits. -/
def dayPad2 (d : Nat) : String :=
  (if d < 10 then "0" else "") ++ toString d

/-- `date_obj.strftime("%a, %b %d")` as computed in `update_weather_ui`. -/
def dateStr (d : PyDate) : String :=
  weekdayAbbrev (pyWeekday d) ++ ", " ++ monthAbbrev d.month ++ " " ++ dayPad2 d.day

/-- One entry of `self.forecast` as built by `update_weather_data`
(the `date` ISO string is modelled parsed, see the file header). -/
structure ForecastDay where
  date : PyDate
  condition : Int
  max_temp : ℚ
  min_temp : ℚ
deriving DecidableEq, Repr

/-- `self.weather_icons`: weather condition codes to Unicode mapping. -/
def weather_icons : List (Int × String) :=
  [(0, "☀️"), (1, "🌤️"), (2, "⛅"), (3, "☁️"),
   (45, "🌫️"), (48, "🌫️"),
   (51, "🌧️"), (53, "🌧️"), (55, "🌧️"),
   (56, "🌨️"), (57, "🌨️"),
   (61, "🌦️"), (63, "🌧️"), (65, "🌧️"),
   (66, "🌨️"), (67, "🌨️"),
   (71, "❄️"), (73, "❄️"), (75, "❄️"), (77, "❄️"),
   (80, "🌦️"), (81, "🌧️"), (82, "🌧️"),
   (85, "🌨️"), (86, "🌨️"),
   (95, "⛈️"), (96, "⛈️"), (99, "⛈️")]

/-- `self.weather_descriptions`: weather condition codes to text descriptions. -/
def weather_descriptions : List (Int × String) :=
  [(0, "Clear sky"), (1, "Mainly clear"), (2, "Partly cloudy"), (3, "Overcast"),
   (45, "Fog"), (48, "Depositing rime fog"),
   (51, "Light drizzle"), (53, "Moderate drizzle"), (55, "Dense drizzle"),
   (56, "Light freezing drizzle"), (57, "Dense freezing drizzle"),
   (61, "Slight rain"), (63, "Moderate rain"), (65, "Heavy rain"),
   (66, "Light freezing rain"), (67, "Heavy freezing rain"),
   (71, "Slight snow fall"), (73, "Moderate snow fall"), (75, "Heavy snow fall"),
   (77, "Snow grains"),
   (80, "Slight rain showers"), (81, "Moderate rain showers"),
   (82, "Violent rain showers"),
   (85, "Slight snow showers"), (86, "Heavy snow showers"),
   (95, "Thunderstorm"), (96, "Thunderstorm with slight hail"),
   (99, "Thunderstorm with heavy hail")]

/-- `get_condition_icon`: `self.weather_icons.get(condition_code, "❓")`. -/
def get_condition_icon (condition_code : Int) : String :=
  (weather_icons.lookup condition_code).getD "❓"

/-- `get_condition_description`: `self.weather_descriptions.get(condition_code, "Unknown")`. -/
def get_condition_description (condition_code : Int) : String :=
  (weather_descriptions.lookup condition_code).getD "Unknown"

/-- `celsius_to_fahrenheit`: `(celsius * 9/5) + 32` (Python evaluates
`celsius * 9 / 5` left to right). -/
def celsius_to_fahrenheit (celsius : ℚ) : ℚ :=
  celsius * 9 / 5 + 32

/-- The number of tenths in `q`, rounded to the nearest integer with ties to
even (the rounding Python's fixed-point float formatting performs), computed
directly on the rational's numerator and denominator. -/
def roundTenthsHalfEven (q : ℚ) : Int :=
  let n : Int := 10 * q.num
  let d : Int := (q.den : Int)
  let f : Int := n.fdiv d
  let r : Int := n - f * d
  if 2 * r < d then f
  else if d < 2 * r then f + 1
  else if f % 2 = 0 then f else f + 1

/-- Python's `"{x:.1f}"`: the value rounded to one decimal place. -/
def fmt1 (q : ℚ) : String :=
  let scaled := roundTenthsHalfEven q
  let sign := if scaled < 0 then "-" else ""
  let n := scaled.natAbs
  sign ++ toString (n / 10) ++ "." ++ toString (n % 10)

example : fmt1 (68 : ℚ) = "68.0" := by decide
example : fmt1 (20 : ℚ) = "20.0" := by decide
example : fmt1 (Rat.mk' (-53) 10 (by decide) (by decide)) = "-5.3" := by decide
example : fmt1 (Rat.mk' 1 4 (by decide) (by decide)) = "0.2" := by decide
example : fmt1 (Rat.mk' 3 4 (by decide) (by decide)) = "0.8" := by decide
example : pyWeekday ⟨2024, 10, 12⟩ = 5 := by decide
example : dateStr ⟨2024, 10, 12⟩ = "Sat, Oct 12" := by decide
example : get_condition_icon 0 = "☀️" := by decide
example : get_condition_icon 999 = "❓" := by decide

/-- The mutable attributes of the `UnityWeatherMonitor` instance
(widget handles excluded; the menu lives in `UIState`). -/
structure AppState where
  latitude : ℚ
  longitude : ℚ
  location_name : String
  use_imperial : Bool
  current_temp : Option ℚ
  current_condition : Option Int
  forecast : List ForecastDay
  update_interval : Nat
  running : Bool
deriving DecidableEq

/-- The state set up in `__init__` (Seattle fallback coordinates,
imperial units, no weather yet, 15 minute interval). -/
def initialState : AppState where
  latitude := (476062 : ℚ) / 10000
  longitude := -((1223321 : ℚ) / 10000)
  location_name := "Default Location"
  use_imperial := true
  current_temp := none
  current_condition := none
  forecast := []
  update_interval := 15
  running := true

/-- Helper for `pySplitChar`, recursing over characters with an accumulator
for the current chunk. -/
def splitCharAux (sep : Char) : List Char → List Char → List String
  | [], acc => [String.mk acc.reverse]
  | c :: rest, acc =>
    if c = sep then String.mk acc.reverse :: splitCharAux sep rest []
    else splitCharAux sep rest (c :: acc)

/-- Python `s.split(sep)` for a one-character separator: every occurrence
splits, empty chunks are kept (`"".split(",") == [""]`). -/
def pySplitChar (sep : Char) (s : String) : List String :=
  splitCharAux sep s.toList []

/-- Helper for `pyStartsWith`, comparing character lists. -/
def charsStart : List Char → List Char → Bool
  | [], _ => true
  | _ :: _, [] => false
  | p :: ps, c :: cs => p == c && charsStart ps cs

/-- Python `s.startswith(pre)`. -/
def pyStartsWith (s pre : String) : Bool :=
  charsStart pre.toList s.toList

/-- Python `float(str)`, restricted to the plain signed decimal literals that
occur in `"lat,lon"` coordinate strings (exponents, `inf`/`nan` and
surrounding whitespace are not modelled); `none` models the `ValueError`
that `float` raises on a non-numeric string. -/
def digitsToNat (s : String) : Nat :=
  s.toList.foldl (fun a c => a * 10 + (c.toNat - 48)) 0

/-- Is `s` a non-empty string of ASCII digits? -/
def isDigitString (s : String) : Bool :=
  !s.isEmpty && s.toList.all Char.isDigit

/-- Unsigned part of the decimal grammar accepted by `pyFloat`. -/
def parseUnsignedDecimal (s : String) : Option ℚ :=
  match pySplitChar '.' s with
  | [a] => if isDigitString a then some ((digitsToNat a : ℚ)) else none
  | [a, b] =>
    if isDigitString a && isDigitString b then
      some ((digitsToNat a : ℚ) + (digitsToNat b : ℚ) / (10 : ℚ) ^ b.length)
    else if isDigitString a && b.isEmpty then
      some ((digitsToNat a : ℚ))
    else if a.isEmpty && isDigitString b then
      some ((digitsToNat b : ℚ) / (10 : ℚ) ^ b.length)
    else none
  | _ => none

/-- See `digitsToNat`: model of Python `float(str)`. -/
def pyFloat (s : String) : Option ℚ :=
  match s.toList with
  | '-' :: rest => (parseUnsignedDecimal (String.mk rest)).map Neg.neg
  | '+' :: rest => parseUnsignedDecimal (String.mk rest)
  | _ => parseUnsignedDecimal s

/-- Decoded body of an `ipinfo.io/json` reply; absent JSON fields are `none`. -/
structure IpResponse where
  status_code : Nat
  loc : Option String
  city : Option String
  region : Option String
  country : Option String

/-- `get_location_from_ip`, with the HTTP exchange passed in as an argument:
`none` models a transport error or undecodable body (the `except` branch).
Returns the Python return value together with the post-call state; state
mutations happen in Python statement order, so an exception raised after an
assignment keeps that assignment. -/
def get_location_from_ip (s : AppState) (resp : Option IpResponse) :
    Bool × AppState :=
  match resp with
  | none => (false, s)
  | some r =>
    if r.status_code != 200 then (false, s)
    else
      match r.loc with
      | none => (false, s)
      | some locStr =>
        let lat_long := pySplitChar ',' locStr
        if lat_long.length != 2 then (false, s)
        else
          match pyFloat (lat_long.getD 0 "") with
          | none => (false, s)
          | some lat =>
            let s := { s with latitude := lat }
            match pyFloat (lat_long.getD 1 "") with
            | none => (false, s)
            | some lon =>
              let s := { s with longitude := lon }
              let location_parts :=
                (match r.city with
                 | some c => if c != "" then [c] else []
                 | none => [])
                ++ (match r.region with
                    | some c => if c != "" then [c] else []
                    | none => [])
                ++ (match r.country with
                    | some c => if c != "" then [c] else []
                    | none => [])
              let s := { s with location_name :=
                if location_parts.isEmpty then "Unknown Location"
                else String.intercalate ", " location_parts }
              (true, s)

/-- The `current` object of an Open-Meteo reply; absent fields are `none`. -/
structure WRCurrent where
  temperature_2m : Option ℚ
  weather_code : Option Int

/-- The `daily` object of an Open-Meteo reply; absent arrays are `none`.
The `time` ISO date strings are modelled parsed (see the file header). -/
structure WRDaily where
  time : Option (List PyDate)
  weather_code : Option (List Int)
  temperature_2m_max : Option (List ℚ)
  temperature_2m_min : Option (List ℚ)

/-- Decoded body of an Open-Meteo forecast reply. -/
structure WResponse where
  current : Option WRCurrent
  daily : Option WRDaily

/-- An HTTP reply from the weather API before the status check. -/
structure WeatherHttpReply where
  status_code : Nat
  body : WResponse

/-- `get_weather_data`: returns the decoded JSON on HTTP 200, `None` on a
non-success status or a transport error (`resp = none`). -/
def get_weather_data (resp : Option WeatherHttpReply) : Option WResponse :=
  match resp with
  | none => none
  | some r => if r.status_code == 200 then some r.body else none

/-- The `for i in range(len(data["daily"]["time"]))` body of
`update_weather_data`: walks the `time` array, looking up the parallel
`weather_code` / `temperature_2m_max` / `temperature_2m_min` entries at each
index.  A missing array (`KeyError`) or a too-short array (`IndexError`)
aborts the loop; the days appended before the abort are kept, exactly as
Python's `self.forecast.append` leaves them. -/
def forecast_loop (daily : WRDaily) : List PyDate → Nat → Bool × List ForecastDay
  | [], _ => (true, [])
  | date :: rest, i =>
    match daily.weather_code with
    | none => (false, [])
    | some wcs =>
      match wcs[i]? with
      | none => (false, [])
      | some condition =>
        match daily.temperature_2m_max with
        | none => (false, [])
        | some maxs =>
          match maxs[i]? with
          | none => (false, [])
          | some max_temp =>
            match daily.temperature_2m_min with
            | none => (false, [])
            | some mins =>
              match mins[i]? with
              | none => (false, [])
              | some min_temp =>
                let r := forecast_loop daily rest (i + 1)
                (r.1, ⟨date, condition, max_temp, min_temp⟩ :: r.2)

/-- `update_weather_data`, with the HTTP exchange passed in as an argument.
Returns the Python return value together with the post-call state.  State
mutations happen in Python statement order: `current_temp` and
`current_condition` are assigned and `forecast` is cleared *before* the
`daily` arrays are validated, so a `KeyError`/`IndexError` caught by the
`except` branch (modelled as an early `false` return) keeps every mutation
made up to that point.  (The `GLib.idle_add(self.update_location_item)` call
only repaints the location menu row and is not part of the weather state.) -/
def update_weather_data (s : AppState) (resp : Option WeatherHttpReply) :
    Bool × AppState :=
  match get_weather_data resp with
  | none => (false, s)
  | some data =>
    match data.current with
    | none => (false, s)
    | some current =>
      match current.temperature_2m with
      | none => (false, s)
      | some temp =>
        let s := { s with current_temp := some temp }
        match current.weather_code with
        | none => (false, s)
        | some code =>
          let s := { s with current_condition := some code }
          match data.daily with
          | none => (false, { s with forecast := [] })
          | some daily =>
            match daily.time with
            | none => (false, { s with forecast := [] })
            | some time =>
              let r := forecast_loop daily time 0
              (r.1, { s with forecast := r.2 })

/-- One child of the dropdown `Gtk.Menu`.  `locationItem` / `currentItem`
are the two rows the removal pass skips by identity; `gtkSeparator` is a
`Gtk.SeparatorMenuItem`; `plainItem` is a `Gtk.MenuItem` created with a
plain label (Preferences / Refresh Now / Quit); `monoItem` is a menu item
created by `create_monospace_menu_item` and carries its label text. -/
inductive MenuEntry where
  | locationItem (text : String)
  | currentItem (text : String)
  | gtkSeparator
  | plainItem (text : String)
  | monoItem (text : String)
deriving DecidableEq

/-- The indicator label plus the dropdown menu children, in order. -/
structure UIState where
  label : String
  menu : List MenuEntry
deriving DecidableEq

/-- The menu as assembled in `__init__`: location row, current-weather row,
a separator, 15 `"Day i: Loading..."` placeholder rows, then the separator /
Preferences / separator / Refresh Now / Quit tail. -/
def initialMenu : List MenuEntry :=
  [MenuEntry.locationItem "Location: Detecting...",
   MenuEntry.currentItem "Current Weather: Loading...",
   MenuEntry.gtkSeparator]
  ++ (List.range 15).map
      (fun i => MenuEntry.monoItem ("Day " ++ toString (i + 1) ++ ": Loading..."))
  ++ [MenuEntry.gtkSeparator, MenuEntry.plainItem "Preferences",
      MenuEntry.gtkSeparator, MenuEntry.plainItem "Refresh Now",
      MenuEntry.plainItem "Quit"]

/-- The UI as it stands right after `__init__`. -/
def initialUI : UIState where
  label := ""
  menu := initialMenu

/-- The temperature conversion applied in `update_weather_ui`:
convert to Fahrenheit when `use_imperial`, otherwise pass through. -/
def displayTempOf (use_imperial : Bool) (t : ℚ) : ℚ :=
  if use_imperial then celsius_to_fahrenheit t else t

/-- The unit suffix chosen in `update_weather_ui`. -/
def unitOf (use_imperial : Bool) : String :=
  if use_imperial then "°F" else "°C"

/-- `is_weekend = weekday >= 5` (Python `weekday()`: 5 = Saturday, 6 = Sunday). -/
def isWeekendDay (d : ForecastDay) : Bool :=
  decide (5 ≤ pyWeekday d.date)

/-- One rendered forecast row of `update_weather_ui`:
`f"{date_str}: {icon} {desc}, {max:.1f}{unit} / {min:.1f}{unit}"`. -/
def forecastLineOf (use_imperial : Bool) (d : ForecastDay) : String :=
  dateStr d.date ++ ": " ++ get_condition_icon d.condition ++ " "
    ++ get_condition_description d.condition ++ ", "
    ++ fmt1 (displayTempOf use_imperial d.max_temp) ++ unitOf use_imperial
    ++ " / " ++ fmt1 (displayTempOf use_imperial d.min_temp) ++ unitOf use_imperial

/-- The `new_items` list built by the forecast loop of `update_weather_ui`,
carrying the `last_was_weekend` flag: a blank monospace separator row is
appended when a weekend starts (`is_weekend and not last_was_weekend`) or
ends (`not is_weekend and last_was_weekend`), then the forecast row itself;
after the loop a closing blank row is appended if the last day was a
weekend day. -/
def forecastMenuItems (use_imperial : Bool) :
    Bool → List ForecastDay → List MenuEntry
  | last_was_weekend, [] =>
    if last_was_weekend then [MenuEntry.monoItem ""] else []
  | last_was_weekend, d :: rest =>
    let is_weekend := isWeekendDay d
    let seps : List MenuEntry :=
      if is_weekend && !last_was_weekend then [MenuEntry.monoItem ""]
      else if !is_weekend && last_was_weekend then [MenuEntry.monoItem ""]
      else []
    seps ++ (MenuEntry.monoItem (forecastLineOf use_imperial d)
      :: forecastMenuItems use_imperial is_weekend rest)

/-- The text test of the removal pass of `update_weather_ui`:
`text and (text.startswith("Mon") or ... or text.startswith("Day"))`. -/
def removalMatch (text : String) : Bool :=
  text != "" &&
    (pyStartsWith text "Mon" || pyStartsWith text "Tue" || pyStartsWith text "Wed"
      || pyStartsWith text "Thu" || pyStartsWith text "Fri" || pyStartsWith text "Sat"
      || pyStartsWith text "Sun" || pyStartsWith text "Day")

/-- Which menu children the removal pass of `update_weather_ui` collects:
the location and current rows are skipped by identity, `SeparatorMenuItem`s
fail the `isinstance` test, and every other item is removed exactly when its
label text passes `removalMatch`. -/
def shouldRemove : MenuEntry → Bool
  | MenuEntry.locationItem _ => false
  | MenuEntry.currentItem _ => false
  | MenuEntry.gtkSeparator => false
  | MenuEntry.plainItem text => removalMatch text
  | MenuEntry.monoItem text => removalMatch text

/-- The in-place `update_monospace_menu_item(self.current_item, ...)` label
update: rewrite the current-weather row's text, leave every other entry
alone. -/
def rewriteCurrentRow (text : String) : MenuEntry → MenuEntry
  | MenuEntry.currentItem _ => MenuEntry.currentItem text
  | e => e

/-- `update_weather_ui`: returns the UI unchanged when either
`current_temp` or `current_condition` is still `None`; otherwise sets the
indicator label, rewrites the current-weather row, removes the old forecast
rows (per `shouldRemove`), and inserts the freshly built forecast rows at
position 3 (after location, current weather, and the first separator). -/
def update_weather_ui (s : AppState) (ui : UIState) : UIState :=
  match s.current_temp, s.current_condition with
  | some current_temp, some current_condition =>
    let icon := get_condition_icon current_condition
    let display_temp := displayTempOf s.use_imperial current_temp
    let unit := unitOf s.use_imperial
    let label_text := icon ++ " " ++ fmt1 display_temp ++ unit
    let condition_desc := get_condition_description current_condition
    let menu := ui.menu.map (rewriteCurrentRow ("Current: " ++ icon ++ " "
      ++ condition_desc ++ ", " ++ fmt1 display_temp ++ unit))
    let menu := menu.filter fun e => !shouldRemove e
    let new_items := forecastMenuItems s.use_imperial false s.forecast
    let menu := menu.take 3 ++ new_items ++ menu.drop 3
    { label := label_text, menu := menu }
  | _, _ => ui

/-- `on_unit_toggled`: on an active radio item whose unit differs from the
current one, store the new unit (the UI repaint it schedules is
`update_weather_ui`, modelled separately). -/
def on_unit_toggled (s : AppState) (active : Bool) (use_imperial : Bool) :
    AppState :=
  if active && use_imperial != s.use_imperial then
    { s with use_imperial := use_imperial }
  else s

/-- `on_interval_toggled`: on an active radio item, store the new interval. -/
def on_interval_toggled (s : AppState) (active : Bool) (interval : Nat) :
    AppState :=
  if active then { s with update_interval := interval } else s

/-- A concurrent preference write delivered between two iterations of the
sleep loop: `some n` is the UI thread running `on_interval_toggled` with a
new interval `n`, `none` is an iteration with no interference. -/
def applyLoopEvent (s : AppState) : Option Nat → AppState
  | some n => { s with update_interval := n }
  | none => s

/-- The inner wait of `update_weather_loop`:
`for _ in range(self.update_interval * 60): if not self.running: break;
time.sleep(1)`.  The iteration count is fixed when `range` evaluates its
argument; `events` supplies the concurrent preference writes, one slot
consumed per iteration.  Returns the number of `time.sleep(1)` calls
performed together with the final state. -/
def wait_iters : Nat → List (Option Nat) → AppState → Nat × AppState
  | 0, _, s => (0, s)
  | k + 1, events, s =>
    let s' := match events.head? with
      | some ev => applyLoopEvent s ev
      | none => s
    if s'.running then
      let r := wait_iters k events.tail s'
      (r.1 + 1, r.2)
    else (0, s')

/-- One inter-cycle wait of `update_weather_loop`: the `range` bound
`self.update_interval * 60` is read once, at the start of the wait. -/
def wait_cycle (s : AppState) (events : List (Option Nat)) : Nat × AppState :=
  wait_iters (s.update_interval * 60) events s

/-! ## Specification-side definitions

`specOutsideRun` / `specInsideRun` transcribe the spec's weekend-grouping
words for the refinement claim C2: walking the day sequence, a blank
separator row is placed immediately before the first day of each maximal
run of consecutive weekend days (`specOutsideRun`, "not currently inside a
run", meeting a weekend day), immediately after the last day of each such
run (`specInsideRun`, "inside a run", meeting a non-weekend day), and at
the very end of the sequence when the run extends to the final day
(`specInsideRun` running out of days).  Day rows themselves are rendered
with the code's row renderer, since the claim is only about separator
placement. -/

mutual

/-- Spec-side weekend grouping, outside a weekend run. -/
def specOutsideRun (use_imperial : Bool) : List ForecastDay → List MenuEntry
  | [] => []
  | d :: rest =>
    if isWeekendDay d then
      MenuEntry.monoItem "" :: MenuEntry.monoItem (forecastLineOf use_imperial d)
        :: specInsideRun use_imperial rest
    else
      MenuEntry.monoItem (forecastLineOf use_imperial d)
        :: specOutsideRun use_imperial rest

/-- Spec-side weekend grouping, inside a weekend run. -/
def specInsideRun (use_imperial : Bool) : List ForecastDay → List MenuEntry
  | [] => [MenuEntry.monoItem ""]
  | d :: rest =>
    if isWeekendDay d then
      MenuEntry.monoItem (forecastLineOf use_imperial d)
        :: specInsideRun use_imperial rest
    else
      MenuEntry.monoItem "" :: MenuEntry.monoItem (forecastLineOf use_imperial d)
        :: specOutsideRun use_imperial rest

end

/-! ## Helper lemmas -/

/-- The code's forecast-row builder agrees with the spec-side grouping in
both carry states. -/
theorem forecastMenuItems_eq_spec (u : Bool) (days : List ForecastDay) :
    forecastMenuItems u false days = specOutsideRun u days
    ∧ forecastMenuItems u true days = specInsideRun u days := by
  induction days with
  | nil => exact ⟨rfl, rfl⟩
  | cons d rest ih =>
    cases h : isWeekendDay d <;>
      simp [forecastMenuItems, specOutsideRun, specInsideRun, h, ih.1, ih.2]

/-- The Python weekday number is always below 7. -/
theorem pyWeekday_lt_7 (d : PyDate) : pyWeekday d < 7 := by
  unfold pyWeekday; omega

/-! ## Claims -/

/-- C2: for every forecast sequence (in particular every 15-day one) the
rendered forecast block places its blank separator rows exactly where the
spec's weekend-grouping words place them — immediately before the first day
of each maximal Saturday/Sunday run, immediately after its last day,
including a trailing separator when the run reaches the end — and nowhere
else (`forecastMenuItems` equals the spec-side `specOutsideRun` on every
input); and a day counts as a weekend day exactly when its ISO weekday
number is 6 or 7 (Saturday or Sunday, the two highest). -/
theorem weekend_separator_placement :
    (∀ (u : Bool) (days : List ForecastDay),
      forecastMenuItems u false days = specOutsideRun u days)
    ∧ (∀ d : ForecastDay,
      isWeekendDay d = true ↔ (isoWeekday d.date = 6 ∨ isoWeekday d.date = 7)) := by
  constructor
  · intro u days
    exact (forecastMenuItems_eq_spec u days).1
  · intro d
    have h7 := pyWeekday_lt_7 d.date
    simp only [isWeekendDay, isoWeekday, decide_eq_true_eq]
    omega

/-- C9: before the first successful fetch (either current-weather field
still `none`), `update_weather_ui` leaves the entire UI state unchanged. -/
theorem update_weather_ui_noop_before_first_fetch
    (s : AppState) (ui : UIState)
    (h : s.current_temp = none ∨ s.current_condition = none) :
    update_weather_ui s ui = ui := by
  obtain ⟨lat, lon, name, imp, ct, cc, fc, itv, run⟩ := s
  rcases h with h | h
  · replace h : ct = none := h
    subst h
    cases cc <;> rfl
  · replace h : cc = none := h
    subst h
    cases ct <;> rfl

/-- Witness for C9 at the freshly initialised state. -/
theorem update_weather_ui_noop_before_first_fetch_witness :
    update_weather_ui initialState initialUI = initialUI :=
  update_weather_ui_noop_before_first_fetch initialState initialUI (Or.inl rfl)

/-- The state with current weather 20.0 °C / clear sky stored, otherwise as
initialised (imperial units). -/
def exampleImperialState : AppState :=
  { initialState with current_temp := some 20, current_condition := some 0 }

/-- `exampleImperialState` after the user picks Celsius. -/
def exampleMetricState : AppState :=
  { exampleImperialState with use_imperial := false }

/-- C6: the rendered output is a pure function of the stored Celsius data
and the current unit, so toggling imperial → metric → imperial restores the
state and reproduces the original rendering exactly. -/
theorem unit_toggle_roundtrip (s : AppState) (ui : UIState)
    (h : s.use_imperial = true) :
    on_unit_toggled (on_unit_toggled s true false) true true = s
    ∧ update_weather_ui (on_unit_toggled (on_unit_toggled s true false) true true) ui
      = update_weather_ui s ui := by
  have h2 : on_unit_toggled (on_unit_toggled s true false) true true = s := by
    obtain ⟨lat, lon, name, imp, ct, cc, fc, itv, run⟩ := s
    replace h : imp = true := h
    subst h
    rfl
  exact ⟨h2, by rw [h2]⟩

/-- Witness for C6 at a concrete imperial state. -/
theorem unit_toggle_roundtrip_witness :
    on_unit_toggled (on_unit_toggled exampleImperialState true false) true true
      = exampleImperialState
    ∧ update_weather_ui
        (on_unit_toggled (on_unit_toggled exampleImperialState true false) true true)
        initialUI
      = update_weather_ui exampleImperialState initialUI :=
  unit_toggle_roundtrip exampleImperialState initialUI rfl

/-- Every iteration of the sleep loop with `running` set performs its
`time.sleep(1)`, regardless of interleaved interval writes, and `running`
is preserved. -/
theorem wait_iters_spec :
    ∀ (k : Nat) (events : List (Option Nat)) (s : AppState),
      s.running = true →
      (wait_iters k events s).1 = k ∧ (wait_iters k events s).2.running = true := by
  intro k
  induction k with
  | zero => exact fun events s h => ⟨rfl, h⟩
  | succ k ih =>
    intro events s h
    have hrun : (match events.head? with
        | some ev => applyLoopEvent s ev
        | none => s).running = true := by
      rcases events.head? with _ | ev
      · exact h
      · rcases ev with _ | n
        · exact h
        · exact h
    have ih' := ih events.tail _ hrun
    simp only [wait_iters, hrun, if_true]
    exact ⟨by rw [ih'.1], ih'.2⟩

/-- C8: the length of an inter-cycle wait is fixed by the value of
`update_interval` read when the wait starts (`update_interval * 60` sleep
seconds), whatever interval writes arrive mid-wait; a new interval governs
only the following wait. -/
theorem wait_reads_interval_at_start (s : AppState)
    (events : List (Option Nat)) (h : s.running = true) :
    (wait_cycle s events).1 = s.update_interval * 60
    ∧ ∀ events' : List (Option Nat),
        (wait_cycle (wait_cycle s events).2 events').1
          = (wait_cycle s events).2.update_interval * 60 := by
  refine ⟨(wait_iters_spec _ events s h).1, fun events' => ?_⟩
  exact (wait_iters_spec _ events' _ (wait_iters_spec _ events s h).2).1

/-- Witness for C8: at the initial state (15 minute interval) a wait
interleaved with a switch to 30 minutes still sleeps 900 seconds. -/
theorem wait_reads_interval_at_start_witness :
    (wait_cycle initialState [some 30, none]).1 = 900 :=
  (wait_reads_interval_at_start initialState [some 30, none] rfl).1

/-- A prior state with weather already displayed: 10.0 °C, mainly clear,
one stored forecast day. -/
def c1PriorState : AppState :=
  { initialState with
      current_temp := some 10
      current_condition := some 1
      forecast := [⟨⟨2024, 10, 7⟩, 3, 12, 5⟩] }

/-- An HTTP 200 weather reply whose body has full current conditions
(25.0 °C, partly cloudy) but no `daily` object at all. -/
def c1FailingReply : WeatherHttpReply where
  status_code := 200
  body :=
    { current := some { temperature_2m := some 25, weather_code := some 2 }
      daily := none }

/-- C1 is violated by the code: on a reply with valid current conditions but
a missing `daily` object, `update_weather_data` returns failure yet has
already overwritten `current_temp` and `current_condition` with the new
values and cleared `forecast` — a mix of new current conditions and a
cleared forecast, where the claim demands the prior state back unchanged. -/
theorem update_weather_data_partial_mutation :
    (update_weather_data c1PriorState (some c1FailingReply)).1 = false
    ∧ (update_weather_data c1PriorState (some c1FailingReply)).2.current_temp
        = some 25
    ∧ (update_weather_data c1PriorState (some c1FailingReply)).2.current_condition
        = some 2
    ∧ (update_weather_data c1PriorState (some c1FailingReply)).2.forecast = []
    ∧ c1PriorState.current_temp = some 10
    ∧ c1PriorState.current_condition = some 1
    ∧ c1PriorState.forecast ≠ [] :=
  ⟨rfl, rfl, rfl, rfl, rfl, rfl, by decide⟩

/-- An HTTP 200 geolocation reply whose `loc` has a numeric latitude but a
longitude that `float()` rejects. -/
def c5FailingResponse : IpResponse where
  status_code := 200
  loc := some "12.5,abc"
  city := none
  region := none
  country := none

/-- C5 is violated by the code: on a `loc` of `"12.5,abc"` the resolver
returns failure, keeps `longitude` and `location_name`, but has already
overwritten `latitude` with 12.5 — the claim demands the whole Location
back unchanged. -/
theorem get_location_partial_mutation :
    (get_location_from_ip initialState (some c5FailingResponse)).1 = false
    ∧ (get_location_from_ip initialState (some c5FailingResponse)).2.latitude
        = 125 / 10
    ∧ (get_location_from_ip initialState (some c5FailingResponse)).2.longitude
        = initialState.longitude
    ∧ (get_location_from_ip initialState (some c5FailingResponse)).2.location_name
        = initialState.location_name
    ∧ initialState.latitude ≠ 125 / 10 := by
  have hflow : get_location_from_ip initialState (some c5FailingResponse)
      = (false, { initialState with
          latitude := (digitsToNat "12" : ℚ)
            + (digitsToNat "5" : ℚ) / (10 : ℚ) ^ String.length "5" }) := rfl
  refine ⟨by rw [hflow], ?_, by rw [hflow], by rw [hflow], ?_⟩
  · rw [hflow]
    show (digitsToNat "12" : ℚ) + (digitsToNat "5" : ℚ) / (10 : ℚ) ^ String.length "5"
      = 125 / 10
    norm_num [show digitsToNat "12" = 12 from rfl, show digitsToNat "5" = 5 from rfl,
      show String.length "5" = 1 from rfl]
  · show (476062 : ℚ) / 10000 ≠ 125 / 10
    norm_num

/-- When the daily loop finishes successfully it has built one record per
`time` entry, carrying the dates in order. -/
theorem forecast_loop_ok (daily : WRDaily) :
    ∀ (time : List PyDate) (i : Nat),
      (forecast_loop daily time i).1 = true →
      (forecast_loop daily time i).2.map ForecastDay.date = time
      ∧ (forecast_loop daily time i).2.length = time.length := by
  intro time
  induction time with
  | nil => exact fun i _ => ⟨rfl, rfl⟩
  | cons date rest ih =>
    intro i h
    rcases hwc : daily.weather_code with _ | wcs
    · simp [forecast_loop, hwc] at h
    · rcases hgc : wcs[i]? with _ | condition
      · simp [forecast_loop, hwc, hgc] at h
      · rcases hmx : daily.temperature_2m_max with _ | maxs
        · simp [forecast_loop, hwc, hgc, hmx] at h
        · rcases hgx : maxs[i]? with _ | max_temp
          · simp [forecast_loop, hwc, hgc, hmx, hgx] at h
          · rcases hmn : daily.temperature_2m_min with _ | mins
            · simp [forecast_loop, hwc, hgc, hmx, hgx, hmn] at h
            · rcases hgn : mins[i]? with _ | min_temp
              · simp [forecast_loop, hwc, hgc, hmx, hgx, hmn, hgn] at h
              · simp only [forecast_loop, hwc, hgc, hmx, hgx, hmn, hgn] at h ⊢
                obtain ⟨ih1, ih2⟩ := ih (i + 1) h
                simp [ih1, ih2]

/-- An HTTP 200 weather reply with full current conditions and daily arrays
holding a single day. -/
def c7ShortReply : WeatherHttpReply where
  status_code := 200
  body :=
    { current := some { temperature_2m := some 21, weather_code := some 3 }
      daily := some
        { time := some [⟨2025, 1, 6⟩]
          weather_code := some [2]
          temperature_2m_max := some [7]
          temperature_2m_min := some [1] } }

/-- C7 counterexample: a fetch that succeeds on daily arrays of length one
stores a 1-record forecast, refuting "the length is 15 regardless of the
contents of the response's daily arrays". -/
theorem forecast_length_not_always_15 :
    (update_weather_data initialState (some c7ShortReply)).1 = true
    ∧ (update_weather_data initialState (some c7ShortReply)).2.forecast.length = 1
    ∧ (update_weather_data initialState (some c7ShortReply)).2.forecast.length ≠ 15 :=
  ⟨rfl, rfl, by decide⟩

/-- C7 amended: after every successful fetch the stored forecast is replaced
wholesale by an ordered sequence holding exactly one record per entry of the
response's `daily.time` array, carrying those dates in order (so exactly 15
records whenever the response holds the 15 requested days); the result is a
function of the response alone, not of the previous forecast. -/
theorem forecast_replaced_wholesale (s : AppState) (reply : WeatherHttpReply)
    (daily : WRDaily) (time : List PyDate)
    (hd : reply.body.daily = some daily) (ht : daily.time = some time)
    (hok : (update_weather_data s (some reply)).1 = true) :
    (update_weather_data s (some reply)).2.forecast.map ForecastDay.date = time
    ∧ (update_weather_data s (some reply)).2.forecast.length = time.length
    ∧ (update_weather_data s (some reply)).2.forecast
        = (forecast_loop daily time 0).2 := by
  cases hst : reply.status_code == 200 with
  | false => simp [update_weather_data, get_weather_data, hst] at hok
  | true =>
    simp only [update_weather_data, get_weather_data, hst, if_true] at hok ⊢
    rcases hcur : reply.body.current with _ | current
    · simp [hcur] at hok
    · simp only [hcur] at hok ⊢
      rcases htm : current.temperature_2m with _ | temp
      · simp [htm] at hok
      · simp only [htm] at hok ⊢
        rcases hwc : current.weather_code with _ | code
        · simp [hwc] at hok
        · simp only [hwc, hd, ht] at hok ⊢
          obtain ⟨h1, h2⟩ := forecast_loop_ok daily time 0 hok
          exact ⟨h1, h2, by trivial⟩

/-- Witness for the amended C7 at the one-day reply. -/
theorem forecast_replaced_wholesale_witness :
    (update_weather_data initialState (some c7ShortReply)).2.forecast.map
        ForecastDay.date = [⟨2025, 1, 6⟩]
    ∧ (update_weather_data initialState (some c7ShortReply)).2.forecast.length
        = List.length [(⟨2025, 1, 6⟩ : PyDate)]
    ∧ (update_weather_data initialState (some c7ShortReply)).2.forecast
        = (forecast_loop
            { time := some [⟨2025, 1, 6⟩]
              weather_code := some [2]
              temperature_2m_max := some [7]
              temperature_2m_min := some [1] }
            [⟨2025, 1, 6⟩] 0).2 :=
  forecast_replaced_wholesale initialState c7ShortReply _ [⟨2025, 1, 6⟩] rfl rfl rfl

/-- A value delivered by an association-list lookup occurs among the list's
values. -/
theorem lookup_mem_values {α β : Type} [BEq α] :
    ∀ (l : List (α × β)) (a : α) (v : β),
      l.lookup a = some v → v ∈ l.map Prod.snd := by
  intro l
  induction l with
  | nil => intro a v h; cases h
  | cons kb t ih =>
    intro a v h
    obtain ⟨k, b⟩ := kb
    simp only [List.lookup] at h
    cases hk : a == k
    · simp only [hk] at h
      exact List.mem_cons_of_mem _ (ih a v h)
    · simp only [hk] at h
      obtain rfl : b = v := by simpa using h
      exact List.mem_cons_self _ _

/-- Lookup succeeds on every key of the association list. -/
theorem mem_keys_lookup_isSome {α β : Type} [BEq α] [LawfulBEq α] :
    ∀ (l : List (α × β)) (a : α),
      a ∈ l.map Prod.fst → (l.lookup a).isSome = true := by
  intro l
  induction l with
  | nil => intro a h; simp at h
  | cons kb t ih =>
    intro a h
    obtain ⟨k, b⟩ := kb
    simp only [List.lookup]
    cases hk : a == k
    · simp only [hk]
      apply ih
      simp only [List.map_cons, List.mem_cons] at h
      rcases h with rfl | h
      · simp at hk
      · exact h
    · simp only [hk, Option.isSome_some]

/-- Lookup misses on every key outside the association list. -/
theorem not_mem_keys_lookup_eq_none {α β : Type} [BEq α] [LawfulBEq α] :
    ∀ (l : List (α × β)) (a : α),
      a ∉ l.map Prod.fst → l.lookup a = none := by
  intro l
  induction l with
  | nil => intro a _; rfl
  | cons kb t ih =>
    intro a h
    obtain ⟨k, b⟩ := kb
    simp only [List.map_cons, List.mem_cons, not_or] at h
    simp only [List.lookup]
    cases hk : a == k
    · simp only [hk]
      exact ih a h.2
    · exact absurd (eq_of_beq hk) h.1

/-- C4: glyph and description lookup are total over the integer codes: both
tables index the same code catalog; every code in the catalog yields a glyph
different from the unknown glyph "❓" and a description different from
"Unknown"; every code outside the catalog (such as 999) yields exactly the
fallback glyph "❓" and the text "Unknown". -/
theorem condition_lookup_total :
    (weather_icons.map Prod.fst = weather_descriptions.map Prod.fst)
    ∧ (∀ code : Int, code ∈ weather_icons.map Prod.fst →
        get_condition_icon code ≠ "❓" ∧ get_condition_description code ≠ "Unknown")
    ∧ (∀ code : Int, code ∉ weather_icons.map Prod.fst →
        get_condition_icon code = "❓" ∧ get_condition_description code = "Unknown") := by
  have hkeys : weather_icons.map Prod.fst = weather_descriptions.map Prod.fst := by decide
  refine ⟨hkeys, ?_, ?_⟩
  · intro code hmem
    constructor
    · obtain ⟨v, hv⟩ :=
        Option.isSome_iff_exists.mp (mem_keys_lookup_isSome weather_icons code hmem)
      have hval : get_condition_icon code = v := by
        unfold get_condition_icon
        rw [hv]
        rfl
      rw [hval]
      intro hcontra
      subst hcontra
      exact absurd (lookup_mem_values weather_icons code _ hv) (by decide)
    · have hmem' : code ∈ weather_descriptions.map Prod.fst := hkeys ▸ hmem
      obtain ⟨v, hv⟩ :=
        Option.isSome_iff_exists.mp
          (mem_keys_lookup_isSome weather_descriptions code hmem')
      have hval : get_condition_description code = v := by
        unfold get_condition_description
        rw [hv]
        rfl
      rw [hval]
      intro hcontra
      subst hcontra
      exact absurd (lookup_mem_values weather_descriptions code _ hv) (by decide)
  · intro code hmem
    have hmem' : code ∉ weather_descriptions.map Prod.fst := hkeys ▸ hmem
    have h1 := not_mem_keys_lookup_eq_none weather_icons code hmem
    have h2 := not_mem_keys_lookup_eq_none weather_descriptions code hmem'
    constructor
    · unfold get_condition_icon
      rw [h1]
      rfl
    · unfold get_condition_description
      rw [h2]
      rfl

/-- Witness for C4 at code 0 (in the catalog) and code 999 (outside it). -/
theorem condition_lookup_total_witness :
    (get_condition_icon 0 ≠ "❓" ∧ get_condition_description 0 ≠ "Unknown")
    ∧ (get_condition_icon 999 = "❓" ∧ get_condition_description 999 = "Unknown") :=
  ⟨condition_lookup_total.2.1 0 (by decide),
   condition_lookup_total.2.2 999 (by decide)⟩

/-- The indicator label set by a successful render, expressed through the
conversion helpers. -/
theorem update_weather_ui_label (s : AppState) (ui : UIState) (temp : ℚ)
    (cond : Int) (h1 : s.current_temp = some temp)
    (h2 : s.current_condition = some cond) :
    (update_weather_ui s ui).label
      = get_condition_icon cond ++ " "
        ++ fmt1 (displayTempOf s.use_imperial temp) ++ unitOf s.use_imperial := by
  obtain ⟨lat, lon, name, imp, ct, cc, fc, itv, run⟩ := s
  replace h1 : ct = some temp := h1
  replace h2 : cc = some cond := h2
  subst h1
  subst h2
  rfl

/-- C3: displayed temperatures are the stored Celsius values converted by
`c * 9/5 + 32` under imperial and passed through under metric, uniformly for
the current temperature and every forecast day's max and min, each rendered
rounded to one decimal place; in particular with current = 20.0 °C, clear
sky, the tray label is "☀️ 68.0°F" under imperial and "☀️ 20.0°C" under
metric. -/
theorem temperature_conversion_display :
    (∀ c : ℚ, displayTempOf true c = c * 9 / 5 + 32)
    ∧ (∀ c : ℚ, displayTempOf false c = c)
    ∧ (∀ (u : Bool) (d : ForecastDay),
        forecastLineOf u d
          = dateStr d.date ++ ": " ++ get_condition_icon d.condition ++ " "
            ++ get_condition_description d.condition ++ ", "
            ++ fmt1 (displayTempOf u d.max_temp) ++ unitOf u ++ " / "
            ++ fmt1 (displayTempOf u d.min_temp) ++ unitOf u)
    ∧ (update_weather_ui exampleImperialState initialUI).label = "☀️ 68.0°F"
    ∧ (update_weather_ui exampleMetricState initialUI).label = "☀️ 20.0°C" := by
  refine ⟨fun c => rfl, fun c => rfl, fun u d => rfl, ?_, ?_⟩
  · rw [update_weather_ui_label exampleImperialState initialUI 20 0 rfl rfl]
    show get_condition_icon 0 ++ " " ++ fmt1 (celsius_to_fahrenheit 20) ++ "°F"
      = "☀️ 68.0°F"
    rw [show celsius_to_fahrenheit 20 = 68 by norm_num [celsius_to_fahrenheit]]
    decide
  · rw [update_weather_ui_label exampleMetricState initialUI 20 0 rfl rfl]
    show get_condition_icon 0 ++ " " ++ fmt1 (20 : ℚ) ++ "°C" = "☀️ 20.0°C"
    decide

/-- The number of blank weekend-separator rows (monospace items with empty
text) in a menu. -/
def countBlankRows (menu : List MenuEntry) : Nat :=
  menu.countP fun e => e == MenuEntry.monoItem ""

/-- `countBlankRows` distributes over append. -/
theorem countBlankRows_append (a b : List MenuEntry) :
    countBlankRows (a ++ b) = countBlankRows a + countBlankRows b :=
  List.countP_append _ _ _

/-- Splitting a menu at any position preserves the blank-row count. -/
theorem countBlankRows_take_drop (l : List MenuEntry) (n : Nat) :
    countBlankRows (l.take n) + countBlankRows (l.drop n) = countBlankRows l := by
  rw [← countBlankRows_append, List.take_append_drop]

/-- Rewriting the current-weather row's text never touches a blank row. -/
theorem countBlankRows_map_rewrite (text : String) (l : List MenuEntry) :
    countBlankRows (l.map (rewriteCurrentRow text)) = countBlankRows l := by
  induction l with
  | nil => rfl
  | cons e t ih =>
    simp only [List.map_cons, countBlankRows, List.countP_cons] at ih ⊢
    rw [ih]
    cases e <;> rfl

/-- An entry the removal pass selects is never a blank row. -/
theorem shouldRemove_not_blank {e : MenuEntry} (h : shouldRemove e = true) :
    (e == MenuEntry.monoItem "") = false := by
  rcases e with t | t | _ | t | t
  · rfl
  · rfl
  · rfl
  · rfl
  · simp only [shouldRemove, removalMatch, Bool.and_eq_true, bne_iff_ne] at h
    simp only [beq_eq_false_iff_ne, ne_eq, MenuEntry.monoItem.injEq]
    exact h.1

/-- The removal pass never removes a blank row. -/
theorem countBlankRows_filter_remove (l : List MenuEntry) :
    countBlankRows (l.filter fun e => !shouldRemove e) = countBlankRows l := by
  induction l with
  | nil => rfl
  | cons e t ih =>
    simp only [List.filter_cons, countBlankRows, List.countP_cons] at ih ⊢
    cases hr : shouldRemove e
    · simp only [hr, Bool.not_false, if_true, List.countP_cons]
      rw [ih]
    · have hne := shouldRemove_not_blank hr
      simp only [hr, Bool.not_true, Bool.false_eq_true, if_false, hne]
      rw [ih]
      omega

/-- A forecast block built inside a weekend run, or from a sequence holding
at least one weekend day, holds at least one blank separator row. -/
theorem one_le_countBlank_forecastMenuItems (u : Bool) :
    ∀ (days : List ForecastDay) (b : Bool),
      b = true ∨ (∃ d ∈ days, isWeekendDay d = true) →
      1 ≤ countBlankRows (forecastMenuItems u b days) := by
  intro days
  induction days with
  | nil =>
    intro b h
    rcases h with rfl | ⟨d, hd, _⟩
    · simp [forecastMenuItems, countBlankRows]
    · cases hd
  | cons d rest ih =>
    intro b h
    have hstep : ∀ mode : Bool,
        countBlankRows (forecastMenuItems u mode rest)
          ≤ countBlankRows (forecastMenuItems u b (d :: rest)) →
        1 ≤ countBlankRows (forecastMenuItems u mode rest) →
        1 ≤ countBlankRows (forecastMenuItems u b (d :: rest)) :=
      fun _ hle hone => le_trans hone hle
    cases hw : isWeekendDay d
    · cases b
      · rcases h with h | ⟨d', hd', hw'⟩
        · cases h
        · rcases List.mem_cons.mp hd' with rfl | hd''
          · rw [hw] at hw'
            cases hw'
          · refine hstep false ?_ (ih false (Or.inr ⟨d', hd'', hw'⟩))
            simp only [forecastMenuItems, hw]
            simpa [countBlankRows] using
              List.Sublist.countP_le _
                (List.sublist_cons_self
                  (MenuEntry.monoItem (forecastLineOf u d))
                  (forecastMenuItems u false rest))
      · simp [forecastMenuItems, hw, countBlankRows, List.countP_cons,
          List.countP_append]
    · cases b
      · simp [forecastMenuItems, hw, countBlankRows, List.countP_cons,
          List.countP_append]
      · refine hstep true ?_ (ih true (Or.inl rfl))
        simp only [forecastMenuItems, hw]
        simpa [countBlankRows] using
          List.Sublist.countP_le _
            (List.sublist_cons_self
              (MenuEntry.monoItem (forecastLineOf u d))
              (forecastMenuItems u true rest))

/-- One successful render adds exactly the new block's blank rows to the
menu's blank-row count: the removal pass deletes none of the existing ones. -/
theorem countBlank_after_render (s : AppState) (ui : UIState) (temp : ℚ)
    (cond : Int) (h1 : s.current_temp = some temp)
    (h2 : s.current_condition = some cond) :
    countBlankRows (update_weather_ui s ui).menu
      = countBlankRows ui.menu
        + countBlankRows (forecastMenuItems s.use_imperial false s.forecast) := by
  have key : ∀ (M new : List MenuEntry),
      countBlankRows (M.take 3 ++ new ++ M.drop 3)
        = countBlankRows M + countBlankRows new := by
    intro M new
    rw [countBlankRows_append, countBlankRows_append]
    have hsplit := countBlankRows_take_drop M 3
    omega
  obtain ⟨lat, lon, name, imp, ct, cc, fc, itv, run⟩ := s
  replace h1 : ct = some temp := h1
  replace h2 : cc = some cond := h2
  subst h1
  subst h2
  simp only [update_weather_ui]
  rw [key]
  rw [countBlankRows_filter_remove, countBlankRows_map_rewrite]

/-- C10: the removal pass selects only entries whose non-empty label text
starts with one of the prefixes "Mon"…"Sun" or "Day" — a blank
weekend-separator row (empty text) never matches — so rendering twice over
a forecast that holds at least one weekend day leaves the first render's
blank rows in the menu and stacks the second render's blank rows on top of
them: the blank-row count grows by the new block's count (which is at least
one) instead of being replaced. -/
theorem separator_rows_accumulate :
    shouldRemove (MenuEntry.monoItem "") = false
    ∧ (∀ t : String, shouldRemove (MenuEntry.monoItem t) = true →
        t ≠ ""
        ∧ (pyStartsWith t "Mon" || pyStartsWith t "Tue" || pyStartsWith t "Wed"
            || pyStartsWith t "Thu" || pyStartsWith t "Fri" || pyStartsWith t "Sat"
            || pyStartsWith t "Sun" || pyStartsWith t "Day") = true)
    ∧ (∀ (s : AppState) (ui : UIState) (temp : ℚ) (cond : Int),
        s.current_temp = some temp → s.current_condition = some cond →
        (∃ d ∈ s.forecast, isWeekendDay d = true) →
        countBlankRows (update_weather_ui s (update_weather_ui s ui)).menu
          = countBlankRows (update_weather_ui s ui).menu
            + countBlankRows (forecastMenuItems s.use_imperial false s.forecast)
          ∧ 1 ≤ countBlankRows (forecastMenuItems s.use_imperial false s.forecast)) := by
  refine ⟨rfl, ?_, ?_⟩
  · intro t h
    simp only [shouldRemove, removalMatch, Bool.and_eq_true, bne_iff_ne] at h
    exact ⟨h.1, h.2⟩
  · intro s ui temp cond h1 h2 hex
    exact ⟨countBlank_after_render s _ temp cond h1 h2,
      one_le_countBlank_forecastMenuItems s.use_imperial s.forecast false
        (Or.inr hex)⟩

/-- A state holding a Friday and a Saturday forecast (Oct 11/12 2024) with
current weather present. -/
def c10State : AppState :=
  { initialState with
      current_temp := some 20
      current_condition := some 0
      forecast := [⟨⟨2024, 10, 11⟩, 0, 18, 9⟩, ⟨⟨2024, 10, 12⟩, 61, 15, 8⟩] }

/-- Witness for C10: rendering twice from the initial menu with a forecast
holding a Saturday stacks the second render's blank rows on the first's. -/
theorem separator_rows_accumulate_witness :
    countBlankRows (update_weather_ui c10State (update_weather_ui c10State initialUI)).menu
      = countBlankRows (update_weather_ui c10State initialUI).menu
        + countBlankRows (forecastMenuItems c10State.use_imperial false c10State.forecast)
    ∧ 1 ≤ countBlankRows (forecastMenuItems c10State.use_imperial false c10State.forecast) :=
  separator_rows_accumulate.2.2 c10State initialUI 20 0 rfl rfl
    ⟨⟨⟨2024, 10, 12⟩, 61, 15, 8⟩, by decide, by decide⟩
